import Mathlib

/-!
# TTS Gateway — shallow embedding and verification

Shallow embedding of the dispatch-and-health core of the TTS gateway
(`src/gateway/main.py`, `src/gateway/health.py`, `src/gateway/config.py`).

External effects (HTTP calls to backends, the system clock, psutil) are
modelled as explicit oracle arguments: a `transport` function standing for
the POST to a backend's `/generate` path, a `streamCall` function standing
for the streaming POST to `/generate/stream`, and a `probe` function
standing for the GET to `/health`.  Python exceptions raised by the HTTP
client are modelled as constructors of the oracle's result type; Python
`None`/empty-string truthiness on endpoint settings is modelled explicitly.
Fields of the real responses that come from the wall clock or from system
statistics (timestamps, uptime, memory/cpu usage) are outside the
embedding and are omitted from the modelled response records.
-/

namespace TTSGateway

/-- The failure taxonomy of the spec (§7), used to tag each `raise
HTTPException` site of `src/gateway/main.py` with its classified kind. -/
inductive FailureKind where
  | InvalidModel
  | BackendUnavailable
  | Timeout
  | ValidationError
  | BackendError
  | Internal
  deriving DecidableEq, Repr

/-- The synthesis request payload (`TTSRequest` in `src/gateway/models.py`).
The dispatcher treats it opaquely (`request.dict()` plus an injected
`model` key), so only a representative subset of fields is carried. -/
structure TTSRequest where
  text : String
  voice_id : Option String
  language : Option String
  deriving DecidableEq, Repr

/-- The JSON body actually sent to the backend: `request.dict()` with
`request_data["model"] = model_name` added (`main.py` lines 220-221 and
284-285). -/
structure RequestData where
  req : TTSRequest
  model : String
  deriving DecidableEq, Repr

/-- The gateway's response schema (`TTSResponse` in `src/gateway/models.py`);
a representative subset of its fields.  The dispatcher never inspects the
fields: a parsed value is returned exactly as parsed. -/
structure TTSResponse where
  success : Bool
  audio_data : Option String
  sample_rate : Nat
  model_used : String
  text_length : Nat
  deriving DecidableEq, Repr

/-- What `response.json()` and `TTSResponse(**data)` can observe of a
backend response body: either the body is not parseable JSON (`notJson`,
where `response.json()` raises), or it is JSON with an optional `"detail"`
field (read by the 422 branch) and an optional parse as the gateway's
`TTSResponse` schema (read by the 200 branch). -/
inductive BackendBody where
  | notJson
  | json (detail : Option String) (tts : Option TTSResponse)
  deriving DecidableEq, Repr

/-- A backend HTTP response as observed by `generate_tts`: status code,
body, and raw text (used by the non-200/422 branch). -/
structure BackendResponse where
  status : Nat
  body : BackendBody
  text : String
  deriving DecidableEq, Repr

/-- Result of one transport-level POST attempt by the shared httpx client:
a response, or one of the exception classes caught in `forward_request`
(`httpx.TimeoutException`, `httpx.RequestError`, any other `Exception`). -/
inductive TransportResult where
  | response (resp : BackendResponse)
  | timeoutError
  | requestError (msg : String)
  | otherError (msg : String)
  deriving Repr

/-- `DispatchOutcome` of the spec (§3): `Success` carries the parsed
backend payload; `Failure` carries the classified kind, the HTTP status
code of the raised `HTTPException`, and its detail message. -/
inductive DispatchOutcome where
  | Success (resp : TTSResponse)
  | Failure (kind : FailureKind) (status : Nat) (detail : String)
  deriving DecidableEq, Repr

/-- The settings fields consulted by the dispatch-and-health core
(`Settings` in `src/gateway/config.py`); `none` models Python `None`.
An endpoint that is the empty string is falsy in Python, exactly like
`None`; both are handled explicitly wherever the source tests truthiness. -/
structure Settings where
  kokkoro_endpoint : Option String
  chatterbox_endpoint : Option String
  deriving DecidableEq, Repr

/-- Python truthiness of an `Optional[str]` endpoint (`bool(endpoint)`,
`if not endpoint:`): `None` and the empty string are falsy. -/
def configuredB : Option String → Bool
  | none => false
  | some s => decide (s ≠ "")

/-- `MODEL_ENDPOINTS` of `main.py` lines 77-80: the registry mapping each
logical model name to the environment variable naming its endpoint. -/
def MODEL_ENDPOINTS : List (String × String) :=
  [("kokkoro", "KOKKORO_ENDPOINT"), ("chatterbox", "CHATTERBOX_ENDPOINT")]

/-- `getattr(settings, env_var.lower(), None)` (`main.py` lines 211, 274)
specialised to this settings class: `"KOKKORO_ENDPOINT"` resolves to the
`kokkoro_endpoint` field, `"CHATTERBOX_ENDPOINT"` to `chatterbox_endpoint`,
anything else to `None`. -/
def Settings.getEndpointAttr (s : Settings) (env_var : String) : Option String :=
  if env_var = "KOKKORO_ENDPOINT" then s.kokkoro_endpoint
  else if env_var = "CHATTERBOX_ENDPOINT" then s.chatterbox_endpoint
  else none

/-- `getattr(settings, f"{model_name}_endpoint", None)` (`health.py` lines
128, 156). -/
def Settings.getEndpointByName (s : Settings) (name : String) : Option String :=
  if name = "kokkoro" then s.kokkoro_endpoint
  else if name = "chatterbox" then s.chatterbox_endpoint
  else none

/-- Result of `forward_request`: either the backend's response, or an
`HTTPException` tagged with the failure kind of the raising site. -/
inductive ForwardResult where
  | ok (resp : BackendResponse)
  | httpError (kind : FailureKind) (status : Nat) (detail : String)
  deriving Repr

/-- `forward_request` (`main.py` lines 144-182): POST the payload to
`{endpoint}/generate`; translate `httpx.TimeoutException` to 504,
`httpx.RequestError` to 503, and any other exception to 500, each with the
source's detail message. -/
def forward_request (endpoint : String) (request_data : RequestData)
    (transport : String → RequestData → TransportResult) : ForwardResult :=
  match transport (endpoint ++ "/generate") request_data with
  | .response resp => .ok resp
  | .timeoutError =>
      .httpError .Timeout 504 ("Model endpoint timeout: " ++ endpoint)
  | .requestError _ =>
      .httpError .BackendUnavailable 503 ("Cannot reach model endpoint: " ++ endpoint)
  | .otherError m =>
      .httpError .Internal 500 ("Internal server error: " ++ m)

/-- `generate_tts` (`main.py` lines 184-254), the Request Dispatcher:
resolve the model name against `MODEL_ENDPOINTS` (unknown → 400), read the
endpoint setting (falsy → 503), forward the payload, then classify the
response: 200 with a body parseable into `TTSResponse` → success; 422 with
a JSON body → 422 with the backend's `detail` (default `"Validation
error"`) behind the prefix `"Model validation error: "`; any other status
→ that status with the backend's text; a `.json()`/schema parse failure in
the 200 or 422 branch raises and is caught by the outer
`except Exception` → 500.  `HTTPException`s from `forward_request` are
re-raised as-is (`except HTTPException: raise`). -/
def generate_tts (model_name : String) (request : TTSRequest) (settings : Settings)
    (transport : String → RequestData → TransportResult) : DispatchOutcome :=
  match MODEL_ENDPOINTS.lookup model_name with
  | none =>
      .Failure .InvalidModel 400
        ("Unknown model: " ++ model_name ++ ". Available models: [kokkoro, chatterbox]")
  | some env_var =>
    match settings.getEndpointAttr env_var with
    | none =>
        .Failure .BackendUnavailable 503
          ("Model " ++ model_name ++ " is not configured. Please set " ++ env_var
            ++ " environment variable.")
    | some endpoint =>
      if endpoint = "" then
        .Failure .BackendUnavailable 503
          ("Model " ++ model_name ++ " is not configured. Please set " ++ env_var
            ++ " environment variable.")
      else
        let request_data : RequestData := ⟨request, model_name⟩
        match forward_request endpoint request_data transport with
        | .httpError kind st d => .Failure kind st d
        | .ok resp =>
          if resp.status = 200 then
            match resp.body with
            | .json _ (some tts) => .Success tts
            | .json _ none =>
                .Failure .Internal 500 "Internal server error: response schema mismatch"
            | .notJson =>
                .Failure .Internal 500 "Internal server error: response body is not JSON"
          else if resp.status = 422 then
            match resp.body with
            | .json detail _ =>
                .Failure .ValidationError 422
                  ("Model validation error: " ++ detail.getD "Validation error")
            | .notJson =>
                .Failure .Internal 500 "Internal server error: response body is not JSON"
          else
            .Failure .BackendError resp.status
              ("Model endpoint error: "
                ++ (if resp.text = "" then "HTTP " ++ toString resp.status else resp.text))

/-- `ProcessCounters` of the spec (§3): the process-wide mutable state of
`src/gateway/health.py` (`request_counter`, line 21).  `start_time` is
wall-clock and omitted. -/
structure ProcessCounters where
  request_count : Nat
  deriving DecidableEq, Repr

/-- `increment_request_count` (`health.py` lines 25-28). -/
def increment_request_count (c : ProcessCounters) : ProcessCounters :=
  ⟨c.request_count + 1⟩

/-- One inbound dispatch call, with the process counter state passed
explicitly.  The body of `generate_tts` contains no reference to
`request_counter`, so the state-passing translation returns the counter
unchanged. -/
def generate_tts_call (c : ProcessCounters) (model_name : String) (request : TTSRequest)
    (settings : Settings) (transport : String → RequestData → TransportResult) :
    DispatchOutcome × ProcessCounters :=
  (generate_tts model_name request settings transport, c)

/-- Result of one liveness GET issued by the health prober: a status code,
or one of the exceptions swallowed by `check_model_health`'s
`except Exception` (a timeout is one such exception; it is kept as its own
constructor because the spec names it separately). -/
inductive ProbeResult where
  | response (status : Nat)
  | timeout
  | error (msg : String)
  deriving DecidableEq, Repr

/-- `check_model_health` (`health.py` lines 50-57): GET
`{endpoint}/health`; return `status == 200`; any exception (network error,
timeout expiry) collapses to `false`.  Total by construction — the `probe`
oracle returns a `ProbeResult`, never raises. -/
def check_model_health (probe : String → ProbeResult) (endpoint : String) : Bool :=
  match probe (endpoint ++ "/health") with
  | .response st => st == 200
  | .timeout => false
  | .error _ => false

/-- `get_models_status` (`health.py` lines 59-75): probe `kokkoro` then
`chatterbox`, each only when its endpoint setting is truthy; an
unconfigured model is recorded `false` without a probe. -/
def get_models_status (s : Settings) (probe : String → ProbeResult) :
    List (String × Bool) :=
  let kokkoro_status :=
    match s.kokkoro_endpoint with
    | some e => if e = "" then false else check_model_health probe e
    | none => false
  let chatterbox_status :=
    match s.chatterbox_endpoint with
    | some e => if e = "" then false else check_model_health probe e
    | none => false
  [("kokkoro", kokkoro_status), ("chatterbox", chatterbox_status)]

/-- The probes actually issued by one `get_models_status` run, read off
the same branch structure: one GET to `{endpoint}/health` per truthy
endpoint, in source order, none for a falsy endpoint. -/
def get_models_status_probes (s : Settings) : List String :=
  (match s.kokkoro_endpoint with
   | some e => if e = "" then [] else [e ++ "/health"]
   | none => []) ++
  (match s.chatterbox_endpoint with
   | some e => if e = "" then [] else [e ++ "/health"]
   | none => [])

/-- Latency model of `get_models_status`: the source awaits
`check_model_health(kokkoro)` and then `check_model_health(chatterbox)`
sequentially (lines 65 and 71; there is no `asyncio.gather` or other
fan-out), so the elapsed time of one run is the SUM of the latencies of
the probes it issues; `lat` gives the latency of one GET to a URL. -/
def get_models_status_latency (s : Settings) (lat : String → Nat) : Nat :=
  (match s.kokkoro_endpoint with
   | some e => if e = "" then 0 else lat (e ++ "/health")
   | none => 0) +
  (match s.chatterbox_endpoint with
   | some e => if e = "" then 0 else lat (e ++ "/health")
   | none => 0)

/-- The `"healthy" if any(...) else "degraded"` fold of `health_check`
(`health.py` lines 92-93), factored over the models-status list it is
applied to. -/
def overall_status_rule (models_status : List (String × Bool)) : String :=
  if models_status.any (fun p => p.2) then "healthy" else "degraded"

/-- The fields of `HealthResponse` (`src/gateway/models.py`) produced by
the modelled computation; timestamp/uptime/memory/cpu come from the clock
and psutil and are omitted. -/
structure HealthResponseModel where
  status : String
  request_count : Nat
  models : List (String × Bool)
  deriving DecidableEq, Repr

/-- `health_check` (`health.py` lines 77-104): increment the request
counter, probe all models, and report `healthy` iff any model is
available.  Counter state is passed explicitly. -/
def health_check (c : ProcessCounters) (s : Settings) (probe : String → ProbeResult) :
    HealthResponseModel × ProcessCounters :=
  let c' := increment_request_count c
  let models_status := get_models_status s probe
  (⟨overall_status_rule models_status, c'.request_count, models_status⟩, c')

/-- One per-model entry of the `/health/models` response (`health.py`
lines 129-133). -/
structure DetailedModelStatus where
  healthy : Bool
  endpoint : Option String
  configured : Bool
  deriving DecidableEq, Repr

/-- `models_health_check` (`health.py` lines 119-140), the detailed
aggregation: for each `get_models_status` entry, pair the probed health
with `getattr(settings, f"{name}_endpoint", None)` and
`configured = bool(endpoint)`. -/
def models_health_check (s : Settings) (probe : String → ProbeResult) :
    List (String × DetailedModelStatus) :=
  (get_models_status s probe).map (fun p =>
    let endpoint := s.getEndpointByName p.1
    (p.1, ⟨p.2, endpoint, configuredB endpoint⟩))

/-- Result of `single_model_health_check` (`health.py` lines 142-183):
a 404 `HTTPException` for a name outside the registry, or a JSON response
carrying its HTTP status and the `healthy`/`configured` flags. -/
inductive SingleModelResult where
  | notFound (detail : String)
  | result (httpStatus : Nat) (healthy : Bool) (configured : Bool)
  deriving DecidableEq, Repr

/-- `single_model_health_check` (`health.py` lines 142-183): unknown name
→ 404; falsy endpoint → 503 with `healthy=false, configured=false` and no
probe; otherwise probe and report 200/503 with `configured=true`. -/
def single_model_health_check (model_name : String) (s : Settings)
    (probe : String → ProbeResult) : SingleModelResult :=
  if model_name ∈ (["kokkoro", "chatterbox"] : List String) then
    match s.getEndpointByName model_name with
    | none => .result 503 false false
    | some e =>
      if e = "" then .result 503 false false
      else
        let is_healthy := check_model_health probe e
        .result (if is_healthy then 200 else 503) is_healthy true
  else
    .notFound ("Model " ++ model_name ++ " not found")

/-- A response of the backend's streaming path as observed by
`generate_tts_stream`: status, the byte chunks of the body, and its text
(used in the error branch). -/
structure StreamResponse where
  status : Nat
  chunks : List String
  text : String
  deriving DecidableEq, Repr

/-- Outcome of the Streaming Negotiator: a streamed byte-chunk sequence, a
delegated non-streaming `DispatchOutcome`, or a raised `HTTPException`. -/
inductive StreamOutcome where
  | streamed (chunks : List String)
  | dispatched (out : DispatchOutcome)
  | error (status : Nat) (detail : String)
  deriving DecidableEq, Repr

/-- `generate_tts_stream` (`main.py` lines 256-313), the Streaming
Negotiator: resolve the model as in `generate_tts`; POST to
`{endpoint}/generate/stream`; on status 404 fall back by calling
`generate_tts` with the same arguments; otherwise `raise_for_status()`
turns any 4xx/5xx into an `HTTPException` carrying the backend's status
and text, and a non-error status streams the body chunks. -/
def generate_tts_stream (model_name : String) (request : TTSRequest) (settings : Settings)
    (transport : String → RequestData → TransportResult)
    (streamCall : String → RequestData → StreamResponse) : StreamOutcome :=
  match MODEL_ENDPOINTS.lookup model_name with
  | none => .error 400 ("Unknown model: " ++ model_name)
  | some env_var =>
    match settings.getEndpointAttr env_var with
    | none => .error 503 ("Model " ++ model_name ++ " is not configured")
    | some endpoint =>
      if endpoint = "" then .error 503 ("Model " ++ model_name ++ " is not configured")
      else
        let stream_endpoint := endpoint ++ "/generate/stream"
        let request_data : RequestData := ⟨request, model_name⟩
        let response := streamCall stream_endpoint request_data
        if response.status = 404 then
          .dispatched (generate_tts model_name request settings transport)
        else if 400 ≤ response.status then
          .error response.status ("Model endpoint error: " ++ response.text)
        else
          .streamed response.chunks

/-- Boolean view of a successful outcome, for concrete scenario checks. -/
def DispatchOutcome.isSuccessB : DispatchOutcome → Bool
  | .Success _ => true
  | .Failure _ _ _ => false

/-! ## Concrete fixtures used by witnesses and counterexamples -/

def reqDemo : TTSRequest := ⟨"Hello", none, some "en"⟩

def ttsDemo : TTSResponse := ⟨true, some "UklGRg==", 22050, "kokkoro", 5⟩

def settingsDemo : Settings := ⟨some "http://kokkoro:8001", some "http://chatterbox:8002"⟩

def settingsNone : Settings := ⟨none, none⟩

def settingsKOnly : Settings := ⟨some "http://kokkoro:8001", none⟩

def transportTimeoutDemo : String → RequestData → TransportResult := fun _ _ => .timeoutError

def transportRequestErrDemo : String → RequestData → TransportResult :=
  fun _ _ => .requestError "connection refused"

def transportOtherErrDemo : String → RequestData → TransportResult :=
  fun _ _ => .otherError "boom"

def transportOkDemo : String → RequestData → TransportResult :=
  fun _ _ => .response ⟨200, .json none (some ttsDemo), ""⟩

def transport201Demo : String → RequestData → TransportResult :=
  fun _ _ => .response ⟨201, .json none (some ttsDemo), "created"⟩

def transport422Demo : String → RequestData → TransportResult :=
  fun _ _ => .response ⟨422, .json (some "bad voice") none, ""⟩

def transportNotJsonDemo : String → RequestData → TransportResult :=
  fun _ _ => .response ⟨200, .notJson, "<html>oops</html>"⟩

def streamCall404Demo : String → RequestData → StreamResponse :=
  fun _ _ => ⟨404, [], "Not Found"⟩

/-! ## Theorems -/

/-- Claim C1: for every dispatch call, an unknown model name yields
`Failure{InvalidModel}` (HTTP 400); a known-but-unconfigured model yields
`Failure{BackendUnavailable}` (HTTP 503); a transport timeout of the
forwarding call yields `Failure{Timeout}` (HTTP 504); a transport or
connection error yields `Failure{BackendUnavailable}` (HTTP 503); any
other unexpected transport condition yields `Failure{Internal}`
(HTTP 500). -/
theorem dispatch_error_classification (model_name : String) (request : TTSRequest)
    (s : Settings) (transport : String → RequestData → TransportResult) :
    (MODEL_ENDPOINTS.lookup model_name = none →
      ∃ d, generate_tts model_name request s transport = .Failure .InvalidModel 400 d)
    ∧ (∀ env_var, MODEL_ENDPOINTS.lookup model_name = some env_var →
        configuredB (s.getEndpointAttr env_var) = false →
        ∃ d, generate_tts model_name request s transport
          = .Failure .BackendUnavailable 503 d)
    ∧ (∀ env_var e, MODEL_ENDPOINTS.lookup model_name = some env_var →
        s.getEndpointAttr env_var = some e → e ≠ "" →
        transport (e ++ "/generate") ⟨request, model_name⟩ = .timeoutError →
        generate_tts model_name request s transport
          = .Failure .Timeout 504 ("Model endpoint timeout: " ++ e))
    ∧ (∀ env_var e m, MODEL_ENDPOINTS.lookup model_name = some env_var →
        s.getEndpointAttr env_var = some e → e ≠ "" →
        transport (e ++ "/generate") ⟨request, model_name⟩ = .requestError m →
        generate_tts model_name request s transport
          = .Failure .BackendUnavailable 503 ("Cannot reach model endpoint: " ++ e))
    ∧ (∀ env_var e m, MODEL_ENDPOINTS.lookup model_name = some env_var →
        s.getEndpointAttr env_var = some e → e ≠ "" →
        transport (e ++ "/generate") ⟨request, model_name⟩ = .otherError m →
        generate_tts model_name request s transport
          = .Failure .Internal 500 ("Internal server error: " ++ m)) := by
  refine ⟨?_, ?_, ?_, ?_, ?_⟩
  · intro h
    exact ⟨"Unknown model: " ++ model_name ++ ". Available models: [kokkoro, chatterbox]",
      by simp [generate_tts, h]⟩
  · intro env_var hl hc
    cases he : s.getEndpointAttr env_var with
    | none =>
      exact ⟨"Model " ++ model_name ++ " is not configured. Please set " ++ env_var
        ++ " environment variable.", by simp [generate_tts, hl, he]⟩
    | some e =>
      have hemp : e = "" := by
        rw [he] at hc
        simpa [configuredB] using hc
      exact ⟨"Model " ++ model_name ++ " is not configured. Please set " ++ env_var
        ++ " environment variable.", by simp [generate_tts, hl, he, hemp]⟩
  · intro env_var e hl he hne ht
    simp [generate_tts, hl, he, hne, forward_request, ht]
  · intro env_var e m hl he hne ht
    simp [generate_tts, hl, he, hne, forward_request, ht]
  · intro env_var e m hl he hne ht
    simp [generate_tts, hl, he, hne, forward_request, ht]

/-- Witness for C1: each classification branch exercised at a concrete
input. -/
theorem dispatch_error_classification_witness :
    (∃ d, generate_tts "tacotron" reqDemo settingsDemo transportTimeoutDemo
        = .Failure .InvalidModel 400 d)
    ∧ (∃ d, generate_tts "kokkoro" reqDemo settingsNone transportTimeoutDemo
        = .Failure .BackendUnavailable 503 d)
    ∧ generate_tts "kokkoro" reqDemo settingsDemo transportTimeoutDemo
        = .Failure .Timeout 504 "Model endpoint timeout: http://kokkoro:8001"
    ∧ generate_tts "kokkoro" reqDemo settingsDemo transportRequestErrDemo
        = .Failure .BackendUnavailable 503 "Cannot reach model endpoint: http://kokkoro:8001"
    ∧ generate_tts "kokkoro" reqDemo settingsDemo transportOtherErrDemo
        = .Failure .Internal 500 "Internal server error: boom" := by
  refine ⟨?_, ?_, ?_, ?_, ?_⟩
  · exact (dispatch_error_classification "tacotron" reqDemo settingsDemo
      transportTimeoutDemo).1 (by decide)
  · exact (dispatch_error_classification "kokkoro" reqDemo settingsNone
      transportTimeoutDemo).2.1 "KOKKORO_ENDPOINT" (by decide) (by decide)
  · exact (dispatch_error_classification "kokkoro" reqDemo settingsDemo
      transportTimeoutDemo).2.2.1 "KOKKORO_ENDPOINT" "http://kokkoro:8001"
      (by decide) (by decide) (by decide) rfl
  · exact (dispatch_error_classification "kokkoro" reqDemo settingsDemo
      transportRequestErrDemo).2.2.2.1 "KOKKORO_ENDPOINT" "http://kokkoro:8001"
      "connection refused" (by decide) (by decide) (by decide) rfl
  · exact (dispatch_error_classification "kokkoro" reqDemo settingsDemo
      transportOtherErrDemo).2.2.2.2 "KOKKORO_ENDPOINT" "http://kokkoro:8001"
      "boom" (by decide) (by decide) (by decide) rfl

/-- Claim C2: whenever the backend's streaming path responds 404, the
streaming negotiator delegates the entire request, unmodified, to the
non-streaming dispatcher, and its final outcome is exactly the outcome of
calling `generate_tts` directly with the same arguments. -/
theorem stream_fallback_equals_dispatch (model_name : String) (request : TTSRequest)
    (s : Settings) (transport : String → RequestData → TransportResult)
    (streamCall : String → RequestData → StreamResponse) (env_var e : String)
    (hl : MODEL_ENDPOINTS.lookup model_name = some env_var)
    (he : s.getEndpointAttr env_var = some e) (hne : e ≠ "")
    (h404 : (streamCall (e ++ "/generate/stream") ⟨request, model_name⟩).status = 404) :
    generate_tts_stream model_name request s transport streamCall
      = .dispatched (generate_tts model_name request s transport) := by
  simp [generate_tts_stream, hl, he, hne, h404]

/-- Witness for C2: a backend whose streaming path 404s and whose
non-streaming path succeeds; the negotiator returns exactly the direct
dispatch outcome. -/
theorem stream_fallback_equals_dispatch_witness :
    generate_tts_stream "kokkoro" reqDemo settingsDemo transportOkDemo streamCall404Demo
      = .dispatched (generate_tts "kokkoro" reqDemo settingsDemo transportOkDemo)
    ∧ generate_tts "kokkoro" reqDemo settingsDemo transportOkDemo = .Success ttsDemo := by
  refine ⟨?_, by decide⟩
  exact stream_fallback_equals_dispatch "kokkoro" reqDemo settingsDemo transportOkDemo
    streamCall404Demo "KOKKORO_ENDPOINT" "http://kokkoro:8001"
    (by decide) (by decide) (by decide) rfl

/-- Counterexample to claim C3: three sequential dispatches (two failing —
unknown model, unconfigured model — and one succeeding) against a fresh
counter leave `request_count` at 0, not 3: the body of `generate_tts`
never calls `increment_request_count`. -/
theorem dispatch_counter_counterexample :
    ((generate_tts_call ⟨0⟩ "tacotron" reqDemo settingsKOnly transportOkDemo).1.isSuccessB
        = false)
    ∧ ((generate_tts_call
          ((generate_tts_call ⟨0⟩ "tacotron" reqDemo settingsKOnly transportOkDemo).2)
          "chatterbox" reqDemo settingsKOnly transportOkDemo).1.isSuccessB = false)
    ∧ ((generate_tts_call
          ((generate_tts_call
              ((generate_tts_call ⟨0⟩ "tacotron" reqDemo settingsKOnly
                  transportOkDemo).2)
              "chatterbox" reqDemo settingsKOnly transportOkDemo).2)
          "kokkoro" reqDemo settingsKOnly transportOkDemo).1.isSuccessB = true)
    ∧ ((generate_tts_call
          ((generate_tts_call
              ((generate_tts_call ⟨0⟩ "tacotron" reqDemo settingsKOnly
                  transportOkDemo).2)
              "chatterbox" reqDemo settingsKOnly transportOkDemo).2)
          "kokkoro" reqDemo settingsKOnly transportOkDemo).2.request_count = 0)
    ∧ ¬((generate_tts_call
          ((generate_tts_call
              ((generate_tts_call ⟨0⟩ "tacotron" reqDemo settingsKOnly
                  transportOkDemo).2)
              "chatterbox" reqDemo settingsKOnly transportOkDemo).2)
          "kokkoro" reqDemo settingsKOnly transportOkDemo).2.request_count = 3) := by
  decide

/-- Amended claim C3: an inbound dispatch call leaves
`ProcessCounters.request_count` unchanged, whatever the outcome; the
counter is incremented (by exactly one per call) by the health endpoints
(`health_check`), not by the dispatcher. -/
theorem dispatch_preserves_counter (c : ProcessCounters) (model_name : String)
    (request : TTSRequest) (s : Settings)
    (transport : String → RequestData → TransportResult) :
    (generate_tts_call c model_name request s transport).2 = c
    ∧ ∀ (s2 : Settings) (probe : String → ProbeResult),
        (health_check c s2 probe).2.request_count = c.request_count + 1 :=
  ⟨rfl, fun _ _ => rfl⟩

/-- Witness for amended C3: one concrete dispatch leaves a fresh counter
at 0, while one health check takes it from 0 to 1. -/
theorem dispatch_preserves_counter_witness :
    (generate_tts_call ⟨0⟩ "kokkoro" reqDemo settingsDemo transportOkDemo).2
        = (⟨0⟩ : ProcessCounters)
    ∧ (health_check ⟨0⟩ settingsDemo (fun _ => .response 200)).2.request_count = 0 + 1 :=
  ⟨(dispatch_preserves_counter ⟨0⟩ "kokkoro" reqDemo settingsDemo transportOkDemo).1,
   (dispatch_preserves_counter ⟨0⟩ "kokkoro" reqDemo settingsDemo transportOkDemo).2
     settingsDemo (fun _ => .response 200)⟩

/-- Counterexample to claim C4: a backend response with the 2xx status 201
and a payload parseable into the gateway's schema yields
`Failure{BackendError}`, not `Success` — the success branch of
`generate_tts` requires status exactly 200. -/
theorem success_requires_200_counterexample :
    generate_tts "kokkoro" reqDemo settingsDemo transport201Demo
      = .Failure .BackendError 201 "Model endpoint error: created"
    ∧ generate_tts "kokkoro" reqDemo settingsDemo transport201Demo ≠ .Success ttsDemo := by
  decide

/-- Amended claim C4: for every dispatch where the backend responds with
status exactly 200 and a payload parseable into the gateway's response
schema, dispatch returns `Success` carrying the parsed payload exactly as
returned, with no reinterpretation; other 2xx statuses fall to the
`BackendError` branch. -/
theorem dispatch_success_on_200 (model_name : String) (request : TTSRequest)
    (s : Settings) (transport : String → RequestData → TransportResult)
    (env_var e txt : String) (dj : Option String) (tts : TTSResponse)
    (hl : MODEL_ENDPOINTS.lookup model_name = some env_var)
    (he : s.getEndpointAttr env_var = some e) (hne : e ≠ "")
    (ht : transport (e ++ "/generate") ⟨request, model_name⟩
      = .response ⟨200, .json dj (some tts), txt⟩) :
    generate_tts model_name request s transport = .Success tts := by
  simp [generate_tts, hl, he, hne, forward_request, ht]

/-- Witness for amended C4: a concrete 200 response parses and is returned
exactly. -/
theorem dispatch_success_on_200_witness :
    generate_tts "kokkoro" reqDemo settingsDemo transportOkDemo = .Success ttsDemo :=
  dispatch_success_on_200 "kokkoro" reqDemo settingsDemo transportOkDemo
    "KOKKORO_ENDPOINT" "http://kokkoro:8001" "" none ttsDemo
    (by decide) (by decide) (by decide) rfl

/-- Counterexample to claim C5: for a backend 422 whose JSON `detail` is
`"bad voice"`, the dispatcher's failure message is
`"Model validation error: bad voice"` — the backend's detail is not passed
through unchanged as the whole message; the gateway prepends a fixed
prefix. -/
theorem validation_message_not_unchanged_counterexample :
    generate_tts "kokkoro" reqDemo settingsDemo transport422Demo
      = .Failure .ValidationError 422 "Model validation error: bad voice"
    ∧ "Model validation error: bad voice" ≠ "bad voice" := by
  decide

/-- Amended claim C5: for every dispatch where the backend responds 422
with a JSON body carrying a `detail` message, dispatch returns
`Failure{ValidationError}` whose message is the fixed prefix
`"Model validation error: "` followed by the backend's detail message
verbatim. -/
theorem dispatch_validation_error_on_422 (model_name : String) (request : TTSRequest)
    (s : Settings) (transport : String → RequestData → TransportResult)
    (env_var e txt detail : String) (tts : Option TTSResponse)
    (hl : MODEL_ENDPOINTS.lookup model_name = some env_var)
    (he : s.getEndpointAttr env_var = some e) (hne : e ≠ "")
    (ht : transport (e ++ "/generate") ⟨request, model_name⟩
      = .response ⟨422, .json (some detail) tts, txt⟩) :
    generate_tts model_name request s transport
      = .Failure .ValidationError 422 ("Model validation error: " ++ detail) := by
  simp [generate_tts, hl, he, hne, forward_request, ht]

/-- Witness for amended C5. -/
theorem dispatch_validation_error_on_422_witness :
    generate_tts "kokkoro" reqDemo settingsDemo transport422Demo
      = .Failure .ValidationError 422 ("Model validation error: " ++ "bad voice") :=
  dispatch_validation_error_on_422 "kokkoro" reqDemo settingsDemo transport422Demo
    "KOKKORO_ENDPOINT" "http://kokkoro:8001" "" "bad voice" none
    (by decide) (by decide) (by decide) rfl

/-- Claim C6: the health probe is total by construction (it is a function
into `Bool`), and on any network error, timeout expiry, or non-2xx status
it returns `false` — all failure modes collapse to `false`. -/
theorem probe_failures_collapse_to_false (probe : String → ProbeResult)
    (endpoint : String) :
    (probe (endpoint ++ "/health") = .timeout →
      check_model_health probe endpoint = false)
    ∧ (∀ m, probe (endpoint ++ "/health") = .error m →
        check_model_health probe endpoint = false)
    ∧ (∀ st, probe (endpoint ++ "/health") = .response st → st < 200 ∨ 300 ≤ st →
        check_model_health probe endpoint = false) := by
  refine ⟨?_, ?_, ?_⟩
  · intro h
    simp [check_model_health, h]
  · intro m h
    simp [check_model_health, h]
  · intro st h hst
    have hne : st ≠ 200 := by omega
    simp [check_model_health, h, hne]

/-- Witness for C6: timeout, connection error, and a non-2xx status each
collapse to `false` at a concrete endpoint. -/
theorem probe_failures_collapse_to_false_witness :
    check_model_health (fun _ => .timeout) "http://kokkoro:8001" = false
    ∧ check_model_health (fun _ => .error "connection refused") "http://kokkoro:8001"
        = false
    ∧ check_model_health (fun _ => .response 503) "http://kokkoro:8001" = false := by
  refine ⟨?_, ?_, ?_⟩
  · exact (probe_failures_collapse_to_false (fun _ => .timeout)
      "http://kokkoro:8001").1 rfl
  · exact (probe_failures_collapse_to_false (fun _ => .error "connection refused")
      "http://kokkoro:8001").2.1 "connection refused" rfl
  · exact (probe_failures_collapse_to_false (fun _ => .response 503)
      "http://kokkoro:8001").2.2 503 rfl (by omega)

/-- Claim C7: the aggregated `overall_status` is `"healthy"` iff at least
one per-backend record is healthy, and `"degraded"` otherwise; the rule
holds for models-status lists of every length (0, 1, N), and `health_check`
reports exactly this rule applied to `get_models_status`. -/
theorem overall_status_healthy_iff (ms : List (String × Bool)) :
    (overall_status_rule ms = "healthy" ↔ ∃ p ∈ ms, p.2 = true)
    ∧ (overall_status_rule ms = "degraded" ↔ ¬∃ p ∈ ms, p.2 = true)
    ∧ ∀ (c : ProcessCounters) (s : Settings) (probe : String → ProbeResult),
        (health_check c s probe).1.status
          = overall_status_rule (get_models_status s probe) := by
  have hany : (ms.any fun p => p.2) = true ↔ ∃ p ∈ ms, p.2 = true := by
    simp [List.any_eq_true]
  refine ⟨?_, ?_, fun _ _ _ => rfl⟩
  · rw [← hany]
    unfold overall_status_rule
    cases h : ms.any fun p => p.2 <;> simp [h]
  · rw [← hany]
    unfold overall_status_rule
    cases h : ms.any fun p => p.2 <;> simp [h]

/-- Witness for C7: the rule evaluated through the theorem on a population
with one healthy backend and on the empty population. -/
theorem overall_status_healthy_iff_witness :
    overall_status_rule [("kokkoro", false), ("chatterbox", true)] = "healthy"
    ∧ overall_status_rule [] = "degraded" := by
  constructor
  · exact (overall_status_healthy_iff [("kokkoro", false), ("chatterbox", true)]).1.mpr
      ⟨("chatterbox", true), by simp, rfl⟩
  · exact (overall_status_healthy_iff ([] : List (String × Bool))).2.1.mpr (by simp)

/-- Counterexample to claim C9: with both backends configured and every
probe taking 1 time unit, one `get_models_status` run takes 2 units — the
probes are awaited sequentially (there is no fan-out in the source), so
total latency is the sum, not bounded by the slowest single probe. -/
theorem probes_not_concurrent_counterexample :
    get_models_status_latency settingsDemo (fun _ => 1) = 2
    ∧ ((get_models_status_probes settingsDemo).map (fun _ => 1)).foldr Nat.max 0 = 1
    ∧ ¬(get_models_status_latency settingsDemo (fun _ => 1)
        ≤ ((get_models_status_probes settingsDemo).map (fun _ => 1)).foldr Nat.max 0) := by
  decide

/-- Amended claim C9: probes within one aggregation run execute
sequentially in registry order, so the run's total latency equals the SUM
of the latencies of the probes it issues (one per configured backend). -/
theorem probes_latency_is_sum (s : Settings) (lat : String → Nat) :
    get_models_status_latency s lat = ((get_models_status_probes s).map lat).sum := by
  rcases s with ⟨ke, ce⟩
  cases ke with
  | none =>
    cases ce with
    | none => simp [get_models_status_latency, get_models_status_probes]
    | some c =>
      by_cases hc : c = "" <;>
        simp [get_models_status_latency, get_models_status_probes, hc]
  | some k =>
    cases ce with
    | none =>
      by_cases hk : k = "" <;>
        simp [get_models_status_latency, get_models_status_probes, hk]
    | some c =>
      by_cases hk : k = "" <;> by_cases hc : c = "" <;>
        simp [get_models_status_latency, get_models_status_probes, hk, hc]

/-- Witness for amended C9: with both backends configured at unit latency,
the run latency equals the sum over the issued probes. -/
theorem probes_latency_is_sum_witness :
    get_models_status_latency settingsDemo (fun _ => 1)
      = ((get_models_status_probes settingsDemo).map (fun _ => 1)).sum :=
  probes_latency_is_sum settingsDemo (fun _ => 1)

/-- Claim C10: a backend 200 response whose body is not parseable JSON, or
is JSON that does not conform to the gateway's response schema, yields
`Failure{Internal}` (HTTP 500) — not `Success` and not
`Failure{BackendError}`. -/
theorem unparseable_200_yields_internal (model_name : String) (request : TTSRequest)
    (s : Settings) (transport : String → RequestData → TransportResult)
    (env_var e txt : String) (dj : Option String)
    (hl : MODEL_ENDPOINTS.lookup model_name = some env_var)
    (he : s.getEndpointAttr env_var = some e) (hne : e ≠ "") :
    (transport (e ++ "/generate") ⟨request, model_name⟩ = .response ⟨200, .notJson, txt⟩ →
      ∃ d, generate_tts model_name request s transport = .Failure .Internal 500 d)
    ∧ (transport (e ++ "/generate") ⟨request, model_name⟩
        = .response ⟨200, .json dj none, txt⟩ →
      ∃ d, generate_tts model_name request s transport = .Failure .Internal 500 d) := by
  constructor
  · intro ht
    exact ⟨"Internal server error: response body is not JSON",
      by simp [generate_tts, hl, he, hne, forward_request, ht]⟩
  · intro ht
    exact ⟨"Internal server error: response schema mismatch",
      by simp [generate_tts, hl, he, hne, forward_request, ht]⟩

/-- Witness for C10: a concrete 200 response with a non-JSON body is
classified `Internal` 500. -/
theorem unparseable_200_yields_internal_witness :
    ∃ d, generate_tts "kokkoro" reqDemo settingsDemo transportNotJsonDemo
      = .Failure .Internal 500 d :=
  (unparseable_200_yields_internal "kokkoro" reqDemo settingsDemo transportNotJsonDemo
    "KOKKORO_ENDPOINT" "http://kokkoro:8001" "<html>oops</html>" none
    (by decide) (by decide) (by decide)).1 rfl

/-- Claim C8: every per-model health record satisfies
`healthy = true → configured = true`, both in the detailed aggregation
(`models_health_check`) and in the per-model query
(`single_model_health_check`); an unconfigured registry entry is recorded
`healthy = false, configured = false`, and its record is the same for
every probe oracle — no probe is issued for it. -/
theorem health_record_invariant (s : Settings) (probe : String → ProbeResult) :
    (∀ name r, (name, r) ∈ models_health_check s probe →
      (r.healthy = true → r.configured = true)
      ∧ (r.configured = false →
          r.healthy = false
          ∧ ∀ probe2, (name, r) ∈ models_health_check s probe2))
    ∧ (∀ name st hb cfg, single_model_health_check name s probe = .result st hb cfg →
        hb = true → cfg = true)
    ∧ (∀ name, name ∈ (["kokkoro", "chatterbox"] : List String) →
        configuredB (s.getEndpointByName name) = false →
        ∀ probe2, single_model_health_check name s probe2 = .result 503 false false) := by
  refine ⟨?_, ?_, ?_⟩
  · intro name r hmem
    simp only [models_health_check, get_models_status, Settings.getEndpointByName,
      List.map_cons, List.map_nil, List.mem_cons, List.not_mem_nil, or_false,
      Prod.mk.injEq] at hmem
    rcases hmem with ⟨rfl, rfl⟩ | ⟨rfl, rfl⟩
    · cases hke : s.kokkoro_endpoint with
      | none =>
        refine ⟨by simp [configuredB], fun _ => ⟨by simp, fun probe2 => ?_⟩⟩
        simp [models_health_check, get_models_status, Settings.getEndpointByName, hke]
      | some e =>
        by_cases hemp : e = ""
        · subst hemp
          refine ⟨by simp [configuredB], fun _ => ⟨by simp, fun probe2 => ?_⟩⟩
          simp [models_health_check, get_models_status, Settings.getEndpointByName, hke]
        · refine ⟨fun _ => by simp [configuredB, hemp], fun hcfg => ?_⟩
          simp [configuredB, hemp] at hcfg
    · cases hce : s.chatterbox_endpoint with
      | none =>
        refine ⟨by simp [configuredB], fun _ => ⟨by simp, fun probe2 => ?_⟩⟩
        simp [models_health_check, get_models_status, Settings.getEndpointByName, hce]
      | some e =>
        by_cases hemp : e = ""
        · subst hemp
          refine ⟨by simp [configuredB], fun _ => ⟨by simp, fun probe2 => ?_⟩⟩
          simp [models_health_check, get_models_status, Settings.getEndpointByName, hce]
        · refine ⟨fun _ => by simp [configuredB, hemp], fun hcfg => ?_⟩
          simp [configuredB, hemp] at hcfg
  · intro name st hb cfg hres htrue
    by_cases hmem : name ∈ (["kokkoro", "chatterbox"] : List String)
    · cases he : Settings.getEndpointByName s name with
      | none =>
        have hval : single_model_health_check name s probe = .result 503 false false := by
          simp [single_model_health_check, hmem, he]
        rw [hval] at hres
        injection hres with h1 h2 h3
        subst h2
        exact absurd htrue (by decide)
      | some e =>
        by_cases hemp : e = ""
        · have hval : single_model_health_check name s probe = .result 503 false false := by
            simp [single_model_health_check, hmem, he, hemp]
          rw [hval] at hres
          injection hres with h1 h2 h3
          subst h2
          exact absurd htrue (by decide)
        · have hval : single_model_health_check name s probe
              = .result (if check_model_health probe e = true then 200 else 503)
                  (check_model_health probe e) true := by
            simp [single_model_health_check, hmem, he, hemp]
          rw [hval] at hres
          injection hres with h1 h2 h3
          exact h3.symm
    · have hval : single_model_health_check name s probe
          = .notFound ("Model " ++ name ++ " not found") := by
        simp [single_model_health_check, hmem]
      rw [hval] at hres
      exact absurd hres (by simp)
  · intro name hmem hcfg probe2
    have hreg : name = "kokkoro" ∨ name = "chatterbox" := by simpa using hmem
    rcases hreg with rfl | rfl
    · have hke : configuredB s.kokkoro_endpoint = false := by
        simpa [Settings.getEndpointByName] using hcfg
      cases he : s.kokkoro_endpoint with
      | none => simp [single_model_health_check, Settings.getEndpointByName, he]
      | some e =>
        rw [he] at hke
        have hemp : e = "" := by simpa [configuredB] using hke
        subst hemp
        simp [single_model_health_check, Settings.getEndpointByName, he]
    · have hce : configuredB s.chatterbox_endpoint = false := by
        simpa [Settings.getEndpointByName] using hcfg
      cases he : s.chatterbox_endpoint with
      | none => simp [single_model_health_check, Settings.getEndpointByName, he]
      | some e =>
        rw [he] at hce
        have hemp : e = "" := by simpa [configuredB] using hce
        subst hemp
        simp [single_model_health_check, Settings.getEndpointByName, he]

/-- Witness for C8: with only kokkoro configured, the chatterbox record is
`healthy = false, configured = false` under two different probe oracles,
and a healthy single-model result implies `configured = true` at a
concrete input. -/
theorem health_record_invariant_witness :
    (("chatterbox",
        (⟨false, none, false⟩ : DetailedModelStatus)) ∈
          models_health_check settingsKOnly (fun _ => .response 200))
    ∧ single_model_health_check "chatterbox" settingsKOnly (fun _ => .timeout)
        = .result 503 false false
    ∧ single_model_health_check "kokkoro" settingsKOnly (fun _ => .response 200)
        = .result 200 true true := by
  refine ⟨?_, ?_, by decide⟩
  · have h := ((health_record_invariant settingsKOnly (fun _ => .response 200)).1
      "chatterbox" ⟨false, none, false⟩ (by decide)).2 rfl
    exact h.2 (fun _ => .response 200)
  · exact (health_record_invariant settingsKOnly (fun _ => .timeout)).2.2
      "chatterbox" (by decide) (by decide) (fun _ => .timeout)

end TTSGateway
